import Mathlib

/-!
Verification of the core status model of the `eta` repository
(`eta/core/status.py`): the `StatusMessage`, `JobStatus` and
`PipelineStatus` classes, their state-machine transitions, the
active-job tracking, the publish hook, and the external keyed
representation (`attributes` / `from_dict`).

Modelling conventions:

* Python instances become Lean structures; mutating methods become
  functions returning the updated structure (together with the Python
  return value of the method, `Option String` with `none` standing for
  the Python `None` that a method without a `return` statement yields).
* The wall clock (`eta.core.utils.get_isotime`, not part of the sources
  under verification) is an injected parameter `now : String`: every
  operation that creates a `StatusMessage` without an explicit time
  receives the clock reading it would capture.
* The Python reference `PipelineStatus._active_job`, which always
  points at an element of the append-only list `self.jobs`, is modelled
  as an index into `jobs` (`Option Nat`); `PipelineStatus._publish_callback`
  is defunctionalised as an `Option Nat` identifier which `publish`
  resolves through an environment mapping identifiers to callback
  functions.
* External keyed representations (Python dicts produced by
  serialization and consumed by `from_dict`) are association lists of
  `String × DVal` where `DVal` is a JSON-like value; a missing key is a
  `KeyError`, modelled by `Except String`.
-/

/-- JSON-like values appearing in the external keyed representation. -/
inductive DVal where
  | str : String → DVal
  | null : DVal
  | list : List DVal → DVal
  | dict : List (String × DVal) → DVal

/-- An external keyed representation: an insertion-ordered association list. -/
abbrev Dict := List (String × DVal)

/-- Python dict lookup `d[key]` restricted to the keys present; `none` models `KeyError`. -/
def dlookup : Dict → String → Option DVal
  | [], _ => none
  | (k, v) :: rest, key => if k = key then some v else dlookup rest key

/-- Python `d[key]`: raises `KeyError` when the key is absent. -/
def dget (d : Dict) (key : String) : Except String DVal :=
  match dlookup d key with
  | some v => .ok v
  | none => .error ("KeyError: " ++ key)

/-- Coerce a `DVal` to a string field value. -/
def asStr : DVal → Except String String
  | .str s => .ok s
  | _ => .error "TypeError: expected a string"

/-- Coerce a `DVal` to an optional string field value (`null` becomes `none`). -/
def asOptStr : DVal → Except String (Option String)
  | .str s => .ok (some s)
  | .null => .ok none
  | _ => .error "TypeError: expected a string or null"

/-- Coerce a `DVal` to a list of values. -/
def asList : DVal → Except String (List DVal)
  | .list l => .ok l
  | _ => .error "TypeError: expected a list"

/-- Coerce a `DVal` to a nested keyed representation. -/
def asDict : DVal → Except String Dict
  | .dict d => .ok d
  | _ => .error "TypeError: expected a dict"

/-- Render an optional timestamp as a `DVal` (`None` becomes `null`). -/
def optDV : Option String → DVal
  | some s => .str s
  | none => .null

/-- Python list comprehension `[f(x) for x in l]` over a list of dicts,
with errors (such as `KeyError`) propagating from the first failing element. -/
def fromDictList {α : Type} (f : Dict → Except String α) : List DVal → Except String (List α)
  | [] => .ok []
  | v :: vs => do
    let d ← asDict v
    let a ← f d
    let rest ← fromDictList f vs
    .ok (a :: rest)

/- `PipelineState` string constants from the source. -/
namespace PipelineState

def READY : String := "READY"

def QUEUED : String := "QUEUED"

def RUNNING : String := "RUNNING"

def FAILED : String := "FAILED"

def COMPLETE : String := "COMPLETE"

end PipelineState

/- `JobState` string constants from the source. -/
namespace JobState

def READY : String := "READY"

def QUEUED : String := "QUEUED"

def SKIPPED : String := "SKIPPED"

def RUNNING : String := "RUNNING"

def FAILED : String := "FAILED"

def COMPLETE : String := "COMPLETE"

end JobState

/-- The `StatusMessage` class: a message string with a timestamp string. -/
structure StatusMessage where
  message : String
  time : String
  deriving Repr, DecidableEq

/-- `StatusMessage.__init__`: `self.time = time or etau.get_isotime()`.
A supplied time that is Python-falsy (absent, or the empty string) is
replaced by the injected clock reading `now`. -/
def StatusMessage.create (message : String) (time : Option String) (now : String) : StatusMessage :=
  { message := message
    time :=
      match time with
      | some t => if t = "" then now else t
      | none => now }

/-- `StatusMessage.attributes()`. -/
def StatusMessage.attributes : List String := ["message", "time"]

/-- Modelled from the spec: the projection of `Serializable` (the
`eta.core.serial` module is not among the sources under verification)
writes the fields named by `attributes()`, in order, into a keyed
representation. -/
def StatusMessage.to_dict (m : StatusMessage) : Dict :=
  [("message", .str m.message), ("time", .str m.time)]

/-- `StatusMessage.from_dict`: `StatusMessage(d["message"], time=d["time"])`. -/
def StatusMessage.from_dict (now : String) (d : Dict) : Except String StatusMessage := do
  let m ← dget d "message" >>= asStr
  let t ← dget d "time" >>= asOptStr
  .ok (StatusMessage.create m t now)

/-- The `JobStatus` class. -/
structure JobStatus where
  name : String
  state : String
  start_time : Option String
  complete_time : Option String
  fail_time : Option String
  messages : List StatusMessage
  deriving Repr, DecidableEq

/-- `JobStatus.__init__`. -/
def JobStatus.create (name : String) : JobStatus :=
  { name := name
    state := JobState.QUEUED
    start_time := none
    complete_time := none
    fail_time := none
    messages := [] }

/-- `JobStatus.add_message`: appends a `StatusMessage` and returns its time. -/
def JobStatus.add_message (j : JobStatus) (message : String) (now : String) :
    JobStatus × String :=
  let status_message := StatusMessage.create message none now
  ({ j with messages := j.messages ++ [status_message] }, status_message.time)

/-- `JobStatus.skip`: records the message and sets the state to SKIPPED.
The Python method has no `return` statement, so its return value is `None`. -/
def JobStatus.skip (j : JobStatus) (message : String) (now : String) :
    JobStatus × Option String :=
  let r := j.add_message message now
  ({ r.1 with state := JobState.SKIPPED }, none)

/-- `JobStatus.start`: records the message, sets `start_time` to the time
returned by `add_message`, and sets the state to RUNNING. Returns `None`. -/
def JobStatus.start (j : JobStatus) (message : String) (now : String) :
    JobStatus × Option String :=
  let r := j.add_message message now
  ({ r.1 with start_time := some r.2, state := JobState.RUNNING }, none)

/-- `JobStatus.complete`: records the message, sets `complete_time`, and
sets the state to COMPLETE. Returns `None`. -/
def JobStatus.complete (j : JobStatus) (message : String) (now : String) :
    JobStatus × Option String :=
  let r := j.add_message message now
  ({ r.1 with complete_time := some r.2, state := JobState.COMPLETE }, none)

/-- `JobStatus.fail`: records the message, sets `fail_time`, and sets the
state to FAILED. Returns `None`. -/
def JobStatus.fail (j : JobStatus) (message : String) (now : String) :
    JobStatus × Option String :=
  let r := j.add_message message now
  ({ r.1 with fail_time := some r.2, state := JobState.FAILED }, none)

/-- `JobStatus.attributes()`. -/
def JobStatus.attributes : List String :=
  ["name", "state", "start_time", "complete_time", "fail_time", "messages"]

/-- Modelled from the spec: the projection of a `JobStatus` writes the
fields named by `attributes()`, in order, projecting the nested
`messages` recursively. -/
def JobStatus.to_dict (j : JobStatus) : Dict :=
  [("name", .str j.name),
   ("state", .str j.state),
   ("start_time", optDV j.start_time),
   ("complete_time", optDV j.complete_time),
   ("fail_time", optDV j.fail_time),
   ("messages", .list (j.messages.map (fun m => .dict m.to_dict)))]

/-- `JobStatus.from_dict`: reads each field of the keyed representation
in the order of the source, recursively reconstructing `messages`. -/
def JobStatus.from_dict (now : String) (d : Dict) : Except String JobStatus := do
  let name ← dget d "name" >>= asStr
  let state ← dget d "state" >>= asStr
  let st ← dget d "start_time" >>= asOptStr
  let ct ← dget d "complete_time" >>= asOptStr
  let ft ← dget d "fail_time" >>= asOptStr
  let msgs ← dget d "messages" >>= asList
  let messages ← fromDictList (StatusMessage.from_dict now) msgs
  .ok { name := name, state := state, start_time := st, complete_time := ct,
        fail_time := ft, messages := messages }

/-- The `PipelineStatus` class. `active_job` models the Python reference
`self._active_job` as an index into the append-only `jobs` list;
`publish_callback` models `self._publish_callback` as a defunctionalised
callback identifier. -/
structure PipelineStatus where
  name : String
  state : String
  start_time : Option String
  complete_time : Option String
  fail_time : Option String
  messages : List StatusMessage
  jobs : List JobStatus
  publish_callback : Option Nat
  active_job : Option Nat
  deriving Repr, DecidableEq

/-- `PipelineStatus.__init__`. -/
def PipelineStatus.create (name : String) : PipelineStatus :=
  { name := name
    state := PipelineState.QUEUED
    start_time := none
    complete_time := none
    fail_time := none
    messages := []
    jobs := []
    publish_callback := none
    active_job := none }

/-- `PipelineStatus.set_publish_callback`: registers the callback,
replacing any previous registration. -/
def PipelineStatus.set_publish_callback (s : PipelineStatus) (cid : Nat) : PipelineStatus :=
  { s with publish_callback := some cid }

/-- `PipelineStatus.publish`: if a callback is registered, invoke it once
on the live aggregate; otherwise do nothing. `env` resolves callback
identifiers to functions; a callback may mutate the aggregate (its `ok`
result) or raise (its `error` result), and `publish` neither catches nor
retries. -/
def PipelineStatus.publish (env : Nat → PipelineStatus → Except String PipelineStatus)
    (s : PipelineStatus) : Except String PipelineStatus :=
  match s.publish_callback with
  | none => .ok s
  | some cid => env cid s

/-- `PipelineStatus.add_job`: constructs a fresh `JobStatus`, appends it
to `jobs`, points `active_job` at it, and returns it (here: its index). -/
def PipelineStatus.add_job (s : PipelineStatus) (name : String) : PipelineStatus × Nat :=
  let j := JobStatus.create name
  ({ s with active_job := some s.jobs.length, jobs := s.jobs ++ [j] }, s.jobs.length)

/-- `PipelineStatus.add_message`: appends a `StatusMessage` to the
pipeline log and returns its time. -/
def PipelineStatus.add_message (s : PipelineStatus) (message : String) (now : String) :
    PipelineStatus × String :=
  let status_message := StatusMessage.create message none now
  ({ s with messages := s.messages ++ [status_message] }, status_message.time)

/-- `PipelineStatus.start`: records the message, sets `start_time`, and
sets the state to RUNNING. Returns `None`. -/
def PipelineStatus.start (s : PipelineStatus) (message : String) (now : String) :
    PipelineStatus × Option String :=
  let r := s.add_message message now
  ({ r.1 with start_time := some r.2, state := PipelineState.RUNNING }, none)

/-- `PipelineStatus.complete`: records the message, sets `complete_time`,
and sets the state to COMPLETE. Returns `None`. -/
def PipelineStatus.complete (s : PipelineStatus) (message : String) (now : String) :
    PipelineStatus × Option String :=
  let r := s.add_message message now
  ({ r.1 with complete_time := some r.2, state := PipelineState.COMPLETE }, none)

/-- `PipelineStatus.fail`: records the message, sets `fail_time`, and
sets the state to FAILED. Returns `None`. -/
def PipelineStatus.fail (s : PipelineStatus) (message : String) (now : String) :
    PipelineStatus × Option String :=
  let r := s.add_message message now
  ({ r.1 with fail_time := some r.2, state := PipelineState.FAILED }, none)

/-- `PipelineStatus.attributes()`. -/
def PipelineStatus.attributes : List String :=
  ["name", "state", "start_time", "complete_time", "fail_time", "messages", "jobs"]

/-- Modelled from the spec: the projection of a `PipelineStatus` writes
the fields named by `attributes()`, in order, projecting the nested
`messages` and `jobs` recursively. The private fields `_active_job` and
`_publish_callback` are not among the attributes and are not projected. -/
def PipelineStatus.to_dict (p : PipelineStatus) : Dict :=
  [("name", .str p.name),
   ("state", .str p.state),
   ("start_time", optDV p.start_time),
   ("complete_time", optDV p.complete_time),
   ("fail_time", optDV p.fail_time),
   ("messages", .list (p.messages.map (fun m => .dict m.to_dict))),
   ("jobs", .list (p.jobs.map (fun j => .dict j.to_dict)))]

/-- `PipelineStatus.from_dict`: reads each field in the order of the
source, recursively reconstructing `messages` and `jobs`. The
constructor call `PipelineStatus(d["name"])` leaves `_publish_callback`
and `_active_job` at `None`. -/
def PipelineStatus.from_dict (now : String) (d : Dict) : Except String PipelineStatus := do
  let name ← dget d "name" >>= asStr
  let state ← dget d "state" >>= asStr
  let st ← dget d "start_time" >>= asOptStr
  let ct ← dget d "complete_time" >>= asOptStr
  let ft ← dget d "fail_time" >>= asOptStr
  let msgs ← dget d "messages" >>= asList
  let messages ← fromDictList (StatusMessage.from_dict now) msgs
  let jbs ← dget d "jobs" >>= asList
  let jobs ← fromDictList (JobStatus.from_dict now) jbs
  .ok { name := name, state := state, start_time := st, complete_time := ct,
        fail_time := ft, messages := messages, jobs := jobs,
        publish_callback := none, active_job := none }

/-- One mutation of a `JobStatus` through its public API, as driven by
the Pipeline Runner through the reference returned by `add_job`. Each
constructor carries the message argument and the clock reading `now`
captured by the `StatusMessage` it appends. -/
inductive JobOp where
  | skip : String → String → JobOp
  | start : String → String → JobOp
  | complete : String → String → JobOp
  | fail : String → String → JobOp
  | add_message : String → String → JobOp

/-- Apply a `JobOp`, discarding the Python return value. -/
def JobOp.apply (op : JobOp) (j : JobStatus) : JobStatus :=
  match op with
  | .skip m t => (j.skip m t).1
  | .start m t => (j.start m t).1
  | .complete m t => (j.complete m t).1
  | .fail m t => (j.fail m t).1
  | .add_message m t => (j.add_message m t).1

/-- Replace the i-th job in place, modelling a mutation performed
through a retained Python reference to `jobs[i]`. Out-of-range indices
leave the list unchanged. -/
def modifyJob : List JobStatus → Nat → (JobStatus → JobStatus) → List JobStatus
  | [], _, _ => []
  | j :: js, 0, f => f j :: js
  | j :: js, n + 1, f => j :: modifyJob js n f

/-- One mutation of a `PipelineStatus` through the public API of the
core: the pipeline-level methods, or a job-level method applied to the
job at a given index (the Python reference into `jobs`). -/
inductive Op where
  | add_job : String → Op
  | add_message : String → String → Op
  | start : String → String → Op
  | complete : String → String → Op
  | fail : String → String → Op
  | set_publish_callback : Nat → Op
  | jobOp : Nat → JobOp → Op

/-- Apply an `Op`, discarding the Python return value. -/
def Op.apply (op : Op) (s : PipelineStatus) : PipelineStatus :=
  match op with
  | .add_job n => (s.add_job n).1
  | .add_message m t => (s.add_message m t).1
  | .start m t => (s.start m t).1
  | .complete m t => (s.complete m t).1
  | .fail m t => (s.fail m t).1
  | .set_publish_callback cid => s.set_publish_callback cid
  | .jobOp i jop => { s with jobs := modifyJob s.jobs i jop.apply }

/-- Apply a sequence of operations from left to right. -/
def applyOps (s : PipelineStatus) (ops : List Op) : PipelineStatus :=
  ops.foldl (fun s op => op.apply s) s

/-- Whether an operation is an `add_job` call. -/
def Op.isAddJob : Op → Bool
  | .add_job _ => true
  | _ => false

/-- C8: a freshly constructed PipelineStatus has state QUEUED, empty
messages and jobs, no active job, no publish callback, and all three
milestone timestamps unset; a freshly constructed JobStatus has state
QUEUED (which differs from READY), empty messages, and all three
milestone timestamps unset. -/
theorem fresh_construction_defaults (name : String) :
    ((PipelineStatus.create name).state = PipelineState.QUEUED ∧
     (PipelineStatus.create name).messages = [] ∧
     (PipelineStatus.create name).jobs = [] ∧
     (PipelineStatus.create name).active_job = none ∧
     (PipelineStatus.create name).start_time = none ∧
     (PipelineStatus.create name).complete_time = none ∧
     (PipelineStatus.create name).fail_time = none) ∧
    ((JobStatus.create name).state = JobState.QUEUED ∧
     JobState.QUEUED ≠ JobState.READY ∧
     (JobStatus.create name).messages = [] ∧
     (JobStatus.create name).start_time = none ∧
     (JobStatus.create name).complete_time = none ∧
     (JobStatus.create name).fail_time = none) := by
  refine ⟨⟨rfl, rfl, rfl, rfl, rfl, rfl, rfl⟩, ⟨rfl, ?_, rfl, rfl, rfl, rfl⟩⟩
  decide

/-- C5: publishing with no registered callback returns the aggregate
unchanged and never raises. -/
theorem publish_without_callback_is_noop
    (env : Nat → PipelineStatus → Except String PipelineStatus)
    (s : PipelineStatus) (h : s.publish_callback = none) :
    PipelineStatus.publish env s = .ok s := by
  unfold PipelineStatus.publish
  rw [h]

/-- Witness for `publish_without_callback_is_noop` at a fresh pipeline
and an environment whose callbacks all raise. -/
theorem publish_without_callback_is_noop_witness :
    (PipelineStatus.create "demo").publish_callback = none ∧
    PipelineStatus.publish (fun _ _ => .error "boom") (PipelineStatus.create "demo") =
      .ok (PipelineStatus.create "demo") :=
  ⟨rfl, publish_without_callback_is_noop (fun _ _ => .error "boom") (PipelineStatus.create "demo") rfl⟩

/-- C6: publishing with a registered callback is exactly one synchronous
application of that callback to the live aggregate: the result of
`publish` is the result of the callback, so a callback error propagates
unchanged and a callback mutation becomes the new aggregate state. -/
theorem publish_invokes_registered_callback
    (env : Nat → PipelineStatus → Except String PipelineStatus)
    (s : PipelineStatus) (cid : Nat) (h : s.publish_callback = some cid) :
    PipelineStatus.publish env s = env cid s ∧
    (∀ e, env cid s = .error e → PipelineStatus.publish env s = .error e) ∧
    (∀ s2, env cid s = .ok s2 → PipelineStatus.publish env s = .ok s2) := by
  unfold PipelineStatus.publish
  rw [h]
  exact ⟨rfl, fun e he => he, fun s2 hs => hs⟩

/-- Witness for `publish_invokes_registered_callback` at a pipeline with
callback 7 registered and an environment whose callback 7 raises. -/
theorem publish_invokes_registered_callback_witness :
    ((PipelineStatus.create "demo").set_publish_callback 7).publish_callback = some 7 ∧
    (PipelineStatus.publish (fun _ _ => .error "boom")
        ((PipelineStatus.create "demo").set_publish_callback 7) =
      (fun (_ : Nat) (_ : PipelineStatus) =>
        (.error "boom" : Except String PipelineStatus)) 7
        ((PipelineStatus.create "demo").set_publish_callback 7) ∧
     (∀ e, (.error "boom" : Except String PipelineStatus) = .error e →
        PipelineStatus.publish (fun _ _ => .error "boom")
          ((PipelineStatus.create "demo").set_publish_callback 7) = .error e) ∧
     (∀ s2, (.error "boom" : Except String PipelineStatus) = .ok s2 →
        PipelineStatus.publish (fun _ _ => .error "boom")
          ((PipelineStatus.create "demo").set_publish_callback 7) = .ok s2)) :=
  ⟨rfl, publish_invokes_registered_callback (fun _ _ => .error "boom")
    ((PipelineStatus.create "demo").set_publish_callback 7) 7 rfl⟩

/-- C7: from any initial job state, calling start (clock t1) and then
fail (clock t2) leaves the state FAILED with start_time recorded by the
start call and fail_time recorded by the fail call, both set; and every
repeated transition call simply overwrites the corresponding timestamp
and the state field. -/
theorem start_then_fail_last_write_wins (j : JobStatus) (m1 t1 m2 t2 : String) :
    (((j.start m1 t1).1.fail m2 t2).1.state = JobState.FAILED ∧
     ((j.start m1 t1).1.fail m2 t2).1.start_time = some t1 ∧
     ((j.start m1 t1).1.fail m2 t2).1.fail_time = some t2 ∧
     ((j.start m1 t1).1.fail m2 t2).1.start_time ≠ none ∧
     ((j.start m1 t1).1.fail m2 t2).1.fail_time ≠ none) ∧
    (∀ (k : JobStatus) (m t : String),
      (k.skip m t).1.state = JobState.SKIPPED ∧
      ((k.start m t).1.start_time = some t ∧ (k.start m t).1.state = JobState.RUNNING) ∧
      ((k.complete m t).1.complete_time = some t ∧ (k.complete m t).1.state = JobState.COMPLETE) ∧
      ((k.fail m t).1.fail_time = some t ∧ (k.fail m t).1.state = JobState.FAILED)) := by
  refine ⟨⟨rfl, rfl, rfl, ?_, ?_⟩, ?_⟩
  · exact fun h => Option.noConfusion h
  · exact fun h => Option.noConfusion h
  · exact fun k m t => ⟨rfl, ⟨rfl, rfl⟩, ⟨rfl, rfl⟩, ⟨rfl, rfl⟩⟩

/-- C3 counterexample: `JobStatus.start` appends a message carrying the
clock timestamp, but the Python method body has no return statement, so
its return value is None, not that timestamp. -/
theorem job_transition_return_counterexample :
    ((JobStatus.create "j").start "Job started" "2024-01-01T00:00:00").1.messages =
      [{ message := "Job started", time := "2024-01-01T00:00:00" }] ∧
    ((JobStatus.create "j").start "Job started" "2024-01-01T00:00:00").2 = none ∧
    (none : Option String) ≠ some "2024-01-01T00:00:00" := by
  refine ⟨rfl, rfl, ?_⟩
  exact fun h => Option.noConfusion h

/-- C3 amended: each of skip, start, complete and fail appends exactly
one StatusMessage (carrying the injected clock time) to the messages log
but returns None; it is `add_message` that returns the appended
timestamp, and start/complete/fail record it in their milestone field. -/
theorem job_transitions_append_and_return_none (j : JobStatus) (m t : String) :
    ((j.skip m t).1.messages = j.messages ++ [StatusMessage.create m none t] ∧
     (j.skip m t).2 = none) ∧
    ((j.start m t).1.messages = j.messages ++ [StatusMessage.create m none t] ∧
     (j.start m t).2 = none ∧ (j.start m t).1.start_time = some (StatusMessage.create m none t).time) ∧
    ((j.complete m t).1.messages = j.messages ++ [StatusMessage.create m none t] ∧
     (j.complete m t).2 = none ∧
     (j.complete m t).1.complete_time = some (StatusMessage.create m none t).time) ∧
    ((j.fail m t).1.messages = j.messages ++ [StatusMessage.create m none t] ∧
     (j.fail m t).2 = none ∧ (j.fail m t).1.fail_time = some (StatusMessage.create m none t).time) ∧
    ((j.add_message m t).1.messages = j.messages ++ [StatusMessage.create m none t] ∧
     (j.add_message m t).2 = (StatusMessage.create m none t).time) :=
  ⟨⟨rfl, rfl⟩, ⟨rfl, rfl, rfl⟩, ⟨rfl, rfl, rfl⟩, ⟨rfl, rfl, rfl⟩, ⟨rfl, rfl⟩⟩

/-- C9 counterexample: creating a StatusMessage with the supplied time
value "" does not set the time field to that supplied value; the Python
expression `time or etau.get_isotime()` treats the empty string as
falsy and substitutes the clock reading. -/
theorem status_message_empty_time_counterexample :
    (StatusMessage.create "hello" (some "") "2024-01-01T00:00:00").time =
      "2024-01-01T00:00:00" ∧
    "2024-01-01T00:00:00" ≠ "" := by
  exact ⟨rfl, by decide⟩

/-- C9 amended: creating a StatusMessage with a supplied truthy
(non-empty) time stores exactly that value; with no time, or with the
falsy empty string, the injected clock reading is stored instead; and no
core operation mutates an existing StatusMessage — every pipeline-level
and job-level operation leaves the existing messages list as a prefix,
only ever appending. -/
theorem status_message_creation_time (m now t : String) (h : t ≠ "") :
    (StatusMessage.create m (some t) now).time = t ∧
    (StatusMessage.create m none now).time = now ∧
    (StatusMessage.create m (some "") now).time = now ∧
    (∀ (op : Op) (s : PipelineStatus), ∃ tail, (op.apply s).messages = s.messages ++ tail) ∧
    (∀ (jop : JobOp) (j : JobStatus), ∃ tail, (jop.apply j).messages = j.messages ++ tail) := by
  refine ⟨by simp [StatusMessage.create, h], rfl, rfl, ?_, ?_⟩
  · intro op s
    cases op with
    | add_job n => exact ⟨[], by simp [Op.apply, PipelineStatus.add_job]⟩
    | add_message m2 t2 => exact ⟨[StatusMessage.create m2 none t2], rfl⟩
    | start m2 t2 => exact ⟨[StatusMessage.create m2 none t2], rfl⟩
    | complete m2 t2 => exact ⟨[StatusMessage.create m2 none t2], rfl⟩
    | fail m2 t2 => exact ⟨[StatusMessage.create m2 none t2], rfl⟩
    | set_publish_callback cid => exact ⟨[], by simp [Op.apply, PipelineStatus.set_publish_callback]⟩
    | jobOp i jop => exact ⟨[], by simp [Op.apply]⟩
  · intro jop j
    cases jop with
    | skip m2 t2 => exact ⟨[StatusMessage.create m2 none t2], rfl⟩
    | start m2 t2 => exact ⟨[StatusMessage.create m2 none t2], rfl⟩
    | complete m2 t2 => exact ⟨[StatusMessage.create m2 none t2], rfl⟩
    | fail m2 t2 => exact ⟨[StatusMessage.create m2 none t2], rfl⟩
    | add_message m2 t2 => exact ⟨[StatusMessage.create m2 none t2], rfl⟩

/-- Witness for `status_message_creation_time` at concrete arguments. -/
theorem status_message_creation_time_witness :
    ("2024-06-01T12:00:00" : String) ≠ "" ∧
    ((StatusMessage.create "msg" (some "2024-06-01T12:00:00") "NOW").time =
        "2024-06-01T12:00:00" ∧
     (StatusMessage.create "msg" none "NOW").time = "NOW" ∧
     (StatusMessage.create "msg" (some "") "NOW").time = "NOW" ∧
     (∀ (op : Op) (s : PipelineStatus), ∃ tail, (op.apply s).messages = s.messages ++ tail) ∧
     (∀ (jop : JobOp) (j : JobStatus), ∃ tail, (jop.apply j).messages = j.messages ++ tail)) :=
  ⟨by decide, status_message_creation_time "msg" "NOW" "2024-06-01T12:00:00" (by decide)⟩

/-- `modifyJob` never changes the length of the jobs list. -/
theorem modifyJob_length (js : List JobStatus) (i : Nat) (f : JobStatus → JobStatus) :
    (modifyJob js i f).length = js.length := by
  induction js generalizing i with
  | nil => rfl
  | cons j js ih =>
    cases i with
    | zero => rfl
    | succ n => simp [modifyJob, ih]

/-- Every operation other than `add_job` leaves the active-job pointer alone. -/
theorem apply_active_job_eq (op : Op) (s : PipelineStatus) (h : op.isAddJob = false) :
    (op.apply s).active_job = s.active_job := by
  cases op with
  | add_job n => simp [Op.isAddJob] at h
  | add_message m t => rfl
  | start m t => rfl
  | complete m t => rfl
  | fail m t => rfl
  | set_publish_callback cid => rfl
  | jobOp i jop => rfl

/-- Every operation other than `add_job` leaves the number of jobs alone. -/
theorem apply_jobs_length (op : Op) (s : PipelineStatus) (h : op.isAddJob = false) :
    (op.apply s).jobs.length = s.jobs.length := by
  cases op with
  | add_job n => simp [Op.isAddJob] at h
  | add_message m t => rfl
  | start m t => rfl
  | complete m t => rfl
  | fail m t => rfl
  | set_publish_callback cid => rfl
  | jobOp i jop => simp [Op.apply, modifyJob_length]

/-- The active-job invariant: whenever the pointer is set, it points at
the last element of the jobs list. -/
def ActiveInv (s : PipelineStatus) : Prop :=
  ∀ i, s.active_job = some i → i + 1 = s.jobs.length

/-- Each single operation preserves the active-job invariant. -/
theorem activeInv_step (op : Op) (s : PipelineStatus) (h : ActiveInv s) :
    ActiveInv (op.apply s) := by
  cases hb : op.isAddJob with
  | true =>
    cases op with
    | add_job n =>
      intro i hi
      have hv : i = s.jobs.length := by
        simpa [Op.apply, PipelineStatus.add_job] using hi.symm
      subst hv
      simp [Op.apply, PipelineStatus.add_job]
    | add_message m t => simp [Op.isAddJob] at hb
    | start m t => simp [Op.isAddJob] at hb
    | complete m t => simp [Op.isAddJob] at hb
    | fail m t => simp [Op.isAddJob] at hb
    | set_publish_callback cid => simp [Op.isAddJob] at hb
    | jobOp i jop => simp [Op.isAddJob] at hb
  | false =>
    intro i hi
    rw [apply_active_job_eq op s hb] at hi
    rw [apply_jobs_length op s hb]
    exact h i hi

/-- The active-job invariant holds after any sequence of operations. -/
theorem activeInv_fold (s : PipelineStatus) (ops : List Op) (h : ActiveInv s) :
    ActiveInv (applyOps s ops) := by
  induction ops generalizing s with
  | nil => exact h
  | cons op ops ih => exact ih (op.apply s) (activeInv_step op s h)

/-- After one operation, the active-job pointer is unset exactly when it
was unset before and the operation was not an `add_job`. -/
theorem active_none_step (op : Op) (s : PipelineStatus) :
    (op.apply s).active_job = none ↔ s.active_job = none ∧ op.isAddJob = false := by
  cases op with
  | add_job n => simp [Op.apply, PipelineStatus.add_job, Op.isAddJob]
  | add_message m t => simp [Op.apply, PipelineStatus.add_message, Op.isAddJob]
  | start m t => simp [Op.apply, PipelineStatus.start, PipelineStatus.add_message, Op.isAddJob]
  | complete m t => simp [Op.apply, PipelineStatus.complete, PipelineStatus.add_message, Op.isAddJob]
  | fail m t => simp [Op.apply, PipelineStatus.fail, PipelineStatus.add_message, Op.isAddJob]
  | set_publish_callback cid => simp [Op.apply, PipelineStatus.set_publish_callback, Op.isAddJob]
  | jobOp i jop => simp [Op.apply, Op.isAddJob]

/-- After a sequence of operations, the active-job pointer is unset
exactly when it started unset and no `add_job` occurred. -/
theorem active_none_fold (s : PipelineStatus) (ops : List Op) :
    (applyOps s ops).active_job = none ↔
      s.active_job = none ∧ ∀ op ∈ ops, op.isAddJob = false := by
  induction ops generalizing s with
  | nil => simp [applyOps]
  | cons op ops ih =>
    show (applyOps (op.apply s) ops).active_job = none ↔ _
    rw [ih, active_none_step]
    simp only [List.forall_mem_cons]
    tauto

/-- C2: starting from any pipeline whose active-job pointer is unset
(as produced by the constructor or by `from_dict`) and applying any
sequence of API operations: the pointer is unset exactly when no
`add_job` has been called; whenever it is set, it points at the most
recently created job, the last element of the append-only jobs list;
and immediately after `add_job n` it points at the last element of
`jobs`, a fresh job with name n and state QUEUED, regardless of the
previous active job and its state. -/
theorem active_job_tracking (s0 : PipelineStatus) (ops : List Op)
    (h0 : s0.active_job = none) :
    ((applyOps s0 ops).active_job = none ↔ ∀ op ∈ ops, op.isAddJob = false) ∧
    (∀ i, (applyOps s0 ops).active_job = some i →
      i + 1 = (applyOps s0 ops).jobs.length) ∧
    (∀ n : String,
      ((Op.add_job n).apply (applyOps s0 ops)).active_job =
        some (((Op.add_job n).apply (applyOps s0 ops)).jobs.length - 1) ∧
      ((Op.add_job n).apply (applyOps s0 ops)).jobs.getLast? = some (JobStatus.create n) ∧
      (JobStatus.create n).name = n ∧
      (JobStatus.create n).state = JobState.QUEUED) := by
  refine ⟨?_, ?_, ?_⟩
  · rw [active_none_fold]
    simp [h0]
  · exact activeInv_fold s0 ops (fun i hi => by rw [h0] at hi; cases hi)
  · intro n
    refine ⟨?_, ?_, rfl, rfl⟩
    · simp [Op.apply, PipelineStatus.add_job]
    · simp [Op.apply, PipelineStatus.add_job]

/-- Witness for `active_job_tracking`: a fresh pipeline, started and
with two jobs added, the first of which was failed. -/
theorem active_job_tracking_witness :
    (PipelineStatus.create "demo").active_job = none ∧
    (let s0 := PipelineStatus.create "demo"
     let ops := [Op.start "Pipeline started" "t0", Op.add_job "job1",
                 Op.jobOp 0 (JobOp.fail "Job failed" "t1")]
     ((applyOps s0 ops).active_job = none ↔ ∀ op ∈ ops, op.isAddJob = false) ∧
     (∀ i, (applyOps s0 ops).active_job = some i →
       i + 1 = (applyOps s0 ops).jobs.length) ∧
     (∀ n : String,
       ((Op.add_job n).apply (applyOps s0 ops)).active_job =
         some (((Op.add_job n).apply (applyOps s0 ops)).jobs.length - 1) ∧
       ((Op.add_job n).apply (applyOps s0 ops)).jobs.getLast? = some (JobStatus.create n) ∧
       (JobStatus.create n).name = n ∧
       (JobStatus.create n).state = JobState.QUEUED)) :=
  ⟨rfl, active_job_tracking (PipelineStatus.create "demo")
    [Op.start "Pipeline started" "t0", Op.add_job "job1",
     Op.jobOp 0 (JobOp.fail "Job failed" "t1")] rfl⟩

/-- Peeling a successful `Except` bind: the first component succeeded
and the continuation succeeded on its value. -/
theorem bind_ok {α β : Type} {x : Except String α} {f : α → Except String β} {y : β}
    (h : x >>= f = .ok y) : ∃ a, x = .ok a ∧ f a = .ok y := by
  cases x with
  | error e => exact Except.noConfusion h
  | ok a => exact ⟨a, rfl, h⟩

/-- Rewriting a bind whose first component is known to succeed. -/
theorem except_bind_eq_ok {α β : Type} {x : Except String α} {a : α}
    (hx : x = .ok a) (f : α → Except String β) : x >>= f = f a := by
  rw [hx]
  rfl

/-- A successful `dget` means the key is present. -/
theorem dget_ok_lookup {d : Dict} {k : String} {v : DVal} (h : dget d k = .ok v) :
    dlookup d k ≠ none := by
  intro hn
  simp [dget, hn] at h

/-- A successful `StatusMessage.from_dict` read every projection key. -/
theorem statusMessage_from_dict_ok_keys {now : String} {d : Dict} {y : StatusMessage}
    (h : StatusMessage.from_dict now d = .ok y) :
    ∀ k ∈ StatusMessage.attributes, dlookup d k ≠ none := by
  obtain ⟨v1, h1, h⟩ := bind_ok h
  obtain ⟨w1, hw1, -⟩ := bind_ok h1
  obtain ⟨v2, h2, -⟩ := bind_ok h
  obtain ⟨w2, hw2, -⟩ := bind_ok h2
  intro k hk
  simp only [StatusMessage.attributes, List.mem_cons, List.not_mem_nil, or_false] at hk
  rcases hk with rfl | rfl
  · exact dget_ok_lookup hw1
  · exact dget_ok_lookup hw2

/-- A successful `JobStatus.from_dict` read every projection key. -/
theorem jobStatus_from_dict_ok_keys {now : String} {d : Dict} {y : JobStatus}
    (h : JobStatus.from_dict now d = .ok y) :
    ∀ k ∈ JobStatus.attributes, dlookup d k ≠ none := by
  obtain ⟨v1, h1, h⟩ := bind_ok h
  obtain ⟨w1, hw1, -⟩ := bind_ok h1
  obtain ⟨v2, h2, h⟩ := bind_ok h
  obtain ⟨w2, hw2, -⟩ := bind_ok h2
  obtain ⟨v3, h3, h⟩ := bind_ok h
  obtain ⟨w3, hw3, -⟩ := bind_ok h3
  obtain ⟨v4, h4, h⟩ := bind_ok h
  obtain ⟨w4, hw4, -⟩ := bind_ok h4
  obtain ⟨v5, h5, h⟩ := bind_ok h
  obtain ⟨w5, hw5, -⟩ := bind_ok h5
  obtain ⟨v6, h6, h⟩ := bind_ok h
  obtain ⟨w6, hw6, -⟩ := bind_ok h6
  intro k hk
  simp only [JobStatus.attributes, List.mem_cons, List.not_mem_nil, or_false] at hk
  rcases hk with rfl | rfl | rfl | rfl | rfl | rfl
  · exact dget_ok_lookup hw1
  · exact dget_ok_lookup hw2
  · exact dget_ok_lookup hw3
  · exact dget_ok_lookup hw4
  · exact dget_ok_lookup hw5
  · exact dget_ok_lookup hw6

/-- A successful `PipelineStatus.from_dict` read every projection key. -/
theorem pipelineStatus_from_dict_ok_keys {now : String} {d : Dict} {y : PipelineStatus}
    (h : PipelineStatus.from_dict now d = .ok y) :
    ∀ k ∈ PipelineStatus.attributes, dlookup d k ≠ none := by
  obtain ⟨v1, h1, h⟩ := bind_ok h
  obtain ⟨w1, hw1, -⟩ := bind_ok h1
  obtain ⟨v2, h2, h⟩ := bind_ok h
  obtain ⟨w2, hw2, -⟩ := bind_ok h2
  obtain ⟨v3, h3, h⟩ := bind_ok h
  obtain ⟨w3, hw3, -⟩ := bind_ok h3
  obtain ⟨v4, h4, h⟩ := bind_ok h
  obtain ⟨w4, hw4, -⟩ := bind_ok h4
  obtain ⟨v5, h5, h⟩ := bind_ok h
  obtain ⟨w5, hw5, -⟩ := bind_ok h5
  obtain ⟨v6, h6, h⟩ := bind_ok h
  obtain ⟨w6, hw6, -⟩ := bind_ok h6
  obtain ⟨v7, h7, h⟩ := bind_ok h
  obtain ⟨v8, h8, h⟩ := bind_ok h
  obtain ⟨w8, hw8, -⟩ := bind_ok h8
  intro k hk
  simp only [PipelineStatus.attributes, List.mem_cons, List.not_mem_nil, or_false] at hk
  rcases hk with rfl | rfl | rfl | rfl | rfl | rfl | rfl
  · exact dget_ok_lookup hw1
  · exact dget_ok_lookup hw2
  · exact dget_ok_lookup hw3
  · exact dget_ok_lookup hw4
  · exact dget_ok_lookup hw5
  · exact dget_ok_lookup hw6
  · exact dget_ok_lookup hw8

/-- C4: reconstructing a PipelineStatus, JobStatus or StatusMessage from
an external keyed representation missing any of its required projection
keys raises an error (the Python KeyError) rather than filling a
default value. -/
theorem from_dict_missing_key_error (now : String) (d : Dict) (k : String) :
    (k ∈ PipelineStatus.attributes → dlookup d k = none →
      ∃ e, PipelineStatus.from_dict now d = .error e) ∧
    (k ∈ JobStatus.attributes → dlookup d k = none →
      ∃ e, JobStatus.from_dict now d = .error e) ∧
    (k ∈ StatusMessage.attributes → dlookup d k = none →
      ∃ e, StatusMessage.from_dict now d = .error e) := by
  refine ⟨?_, ?_, ?_⟩
  · intro hk hn
    cases hr : PipelineStatus.from_dict now d with
    | error e => exact ⟨e, rfl⟩
    | ok y => exact absurd hn (pipelineStatus_from_dict_ok_keys hr k hk)
  · intro hk hn
    cases hr : JobStatus.from_dict now d with
    | error e => exact ⟨e, rfl⟩
    | ok y => exact absurd hn (jobStatus_from_dict_ok_keys hr k hk)
  · intro hk hn
    cases hr : StatusMessage.from_dict now d with
    | error e => exact ⟨e, rfl⟩
    | ok y => exact absurd hn (statusMessage_from_dict_ok_keys hr k hk)

/-- Witness for `from_dict_missing_key_error` at the empty keyed
representation, which is missing every required key. -/
theorem from_dict_missing_key_error_witness :
    ("name" ∈ PipelineStatus.attributes ∧ dlookup [] "name" = none ∧
     "name" ∈ JobStatus.attributes ∧ "message" ∈ StatusMessage.attributes) ∧
    (∃ e, PipelineStatus.from_dict "Z" [] = .error e) ∧
    (∃ e, JobStatus.from_dict "Z" [] = .error e) ∧
    (∃ e, StatusMessage.from_dict "Z" [] = .error e) := by
  refine ⟨⟨?_, rfl, ?_, ?_⟩, ?_, ?_, ?_⟩
  · simp [PipelineStatus.attributes]
  · simp [JobStatus.attributes]
  · simp [StatusMessage.attributes]
  · exact (from_dict_missing_key_error "Z" [] "name").1 (by simp [PipelineStatus.attributes]) rfl
  · exact (from_dict_missing_key_error "Z" [] "name").2.1 (by simp [JobStatus.attributes]) rfl
  · exact (from_dict_missing_key_error "Z" [] "message").2.2 (by simp [StatusMessage.attributes]) rfl

/-- C10: every successful pipeline reconstruction has an unset
active-job pointer and no registered publish callback, so publishing it
is a no-op. -/
theorem from_dict_resets_runtime_state (now : String) (d : Dict) (y : PipelineStatus)
    (h : PipelineStatus.from_dict now d = .ok y) :
    y.active_job = none ∧ y.publish_callback = none ∧
    ∀ env, PipelineStatus.publish env y = .ok y := by
  obtain ⟨v1, -, h⟩ := bind_ok h
  obtain ⟨v2, -, h⟩ := bind_ok h
  obtain ⟨v3, -, h⟩ := bind_ok h
  obtain ⟨v4, -, h⟩ := bind_ok h
  obtain ⟨v5, -, h⟩ := bind_ok h
  obtain ⟨v6, -, h⟩ := bind_ok h
  obtain ⟨v7, -, h⟩ := bind_ok h
  obtain ⟨v8, -, h⟩ := bind_ok h
  obtain ⟨v9, -, h⟩ := bind_ok h
  injection h with h2
  subst h2
  exact ⟨rfl, rfl, fun env => rfl⟩

/-- A sample external keyed representation of a pipeline with one job. -/
def sampleDict : Dict :=
  [("name", .str "p"), ("state", .str "RUNNING"), ("start_time", .str "t0"),
   ("complete_time", .null), ("fail_time", .null), ("messages", .list []),
   ("jobs", .list [.dict [("name", .str "j"), ("state", .str "QUEUED"),
     ("start_time", .null), ("complete_time", .null), ("fail_time", .null),
     ("messages", .list [])]])]

/-- The pipeline reconstructed from `sampleDict`. -/
def sampleReconstructed : PipelineStatus :=
  { name := "p", state := "RUNNING", start_time := some "t0", complete_time := none,
    fail_time := none, messages := [], jobs := [JobStatus.create "j"],
    publish_callback := none, active_job := none }

/-- Witness for `from_dict_resets_runtime_state` at a representation
with a non-empty jobs list. -/
theorem from_dict_resets_runtime_state_witness :
    PipelineStatus.from_dict "Z" sampleDict = .ok sampleReconstructed ∧
    (sampleReconstructed.active_job = none ∧
     sampleReconstructed.publish_callback = none ∧
     ∀ env, PipelineStatus.publish env sampleReconstructed = .ok sampleReconstructed) :=
  ⟨rfl, from_dict_resets_runtime_state "Z" sampleDict sampleReconstructed rfl⟩

/-- `asOptStr` inverts `optDV`. -/
theorem asOptStr_optDV (x : Option String) : asOptStr (optDV x) = .ok x := by
  cases x <;> rfl

/-- Reconstruction inverts projection for a StatusMessage whose time is
truthy (non-empty), which is the case for every reachable instance when
the injected clock yields non-empty ISO-8601 text. -/
theorem statusMessage_roundtrip (now : String) (m : StatusMessage) (h : m.time ≠ "") :
    StatusMessage.from_dict now m.to_dict = .ok m := by
  show Except.ok { message := m.message, time := if m.time = "" then now else m.time } =
    Except.ok m
  rw [if_neg h]

/-- Reconstruction inverts projection elementwise on a message list. -/
theorem fromDictList_messages (now : String) (ms : List StatusMessage)
    (h : ∀ x ∈ ms, x.time ≠ "") :
    fromDictList (StatusMessage.from_dict now) (ms.map (fun m => .dict m.to_dict)) = .ok ms := by
  induction ms with
  | nil => rfl
  | cons m ms ih =>
    have hm : m.time ≠ "" := h m (List.mem_cons_self m ms)
    have hs : ∀ x ∈ ms, x.time ≠ "" := fun x hx => h x (List.mem_cons_of_mem m hx)
    refine Eq.trans (except_bind_eq_ok (rfl : asDict (.dict m.to_dict) = .ok m.to_dict) _) ?_
    refine Eq.trans (except_bind_eq_ok (statusMessage_roundtrip now m hm) _) ?_
    refine Eq.trans (except_bind_eq_ok (ih hs) _) ?_
    rfl

/-- Reconstruction inverts projection for a JobStatus all of whose
message times are truthy. -/
theorem jobStatus_roundtrip (now : String) (j : JobStatus)
    (h : ∀ x ∈ j.messages, x.time ≠ "") :
    JobStatus.from_dict now j.to_dict = .ok j := by
  obtain ⟨name, state, st, ct, ft, msgs⟩ := j
  have hmsgs := fromDictList_messages now msgs h
  cases st <;> cases ct <;> cases ft <;>
    exact Eq.trans (except_bind_eq_ok hmsgs _) rfl

/-- Reconstruction inverts projection elementwise on a job list. -/
theorem fromDictList_jobs (now : String) (js : List JobStatus)
    (h : ∀ j ∈ js, ∀ x ∈ j.messages, x.time ≠ "") :
    fromDictList (JobStatus.from_dict now) (js.map (fun j => .dict j.to_dict)) = .ok js := by
  induction js with
  | nil => rfl
  | cons j js ih =>
    have hj : ∀ x ∈ j.messages, x.time ≠ "" := h j (List.mem_cons_self j js)
    have hs : ∀ q ∈ js, ∀ x ∈ q.messages, x.time ≠ "" :=
      fun q hq => h q (List.mem_cons_of_mem j hq)
    refine Eq.trans (except_bind_eq_ok (rfl : asDict (.dict j.to_dict) = .ok j.to_dict) _) ?_
    refine Eq.trans (except_bind_eq_ok (jobStatus_roundtrip now j hj) _) ?_
    refine Eq.trans (except_bind_eq_ok (ih hs) _) ?_
    rfl

/-- Reconstruction inverts projection for a PipelineStatus on every
projected attribute; the non-projected private fields come back unset. -/
theorem pipelineStatus_roundtrip (now : String) (p : PipelineStatus)
    (hm : ∀ x ∈ p.messages, x.time ≠ "")
    (hj : ∀ q ∈ p.jobs, ∀ x ∈ q.messages, x.time ≠ "") :
    PipelineStatus.from_dict now p.to_dict =
      .ok { p with publish_callback := none, active_job := none } := by
  obtain ⟨name, state, st, ct, ft, msgs, jobs, pc, aj⟩ := p
  have hmsgs := fromDictList_messages now msgs hm
  have hjobs := fromDictList_jobs now jobs hj
  cases st <;> cases ct <;> cases ft <;>
    exact Eq.trans (except_bind_eq_ok hmsgs _)
      (Eq.trans (except_bind_eq_ok hjobs _) rfl)

/-- C1 counterexample: for the reachable pipeline obtained by creating
"p" and adding job "job1", the active-job pointer is set, but the
instance reconstructed from its projection has it unset, so the
reconstruction is not structurally equal to the original. -/
theorem roundtrip_counterexample :
    ((PipelineStatus.create "p").add_job "job1").1.active_job = some 0 ∧
    (PipelineStatus.from_dict "Z" ((PipelineStatus.create "p").add_job "job1").1.to_dict).map
      PipelineStatus.active_job = .ok none ∧
    some 0 ≠ (none : Option Nat) := by
  refine ⟨rfl, rfl, ?_⟩
  exact fun h => Option.noConfusion h

/-- C1 amended: for every instance whose message timestamps are truthy
(as every reachable instance is, the clock producing non-empty ISO-8601
text), reconstruction from the projection agrees with the original on
every projected attribute — for StatusMessage and JobStatus it is
structurally equal to the original, and for PipelineStatus it equals
the original with the private, non-projected active-job pointer and
publish callback reset to none — and re-projecting the reconstruction
reproduces the original keyed representation field-for-field. -/
theorem external_representation_roundtrip (now : String)
    (m : StatusMessage) (hm : m.time ≠ "")
    (j : JobStatus) (hj : ∀ x ∈ j.messages, x.time ≠ "")
    (p : PipelineStatus) (hpm : ∀ x ∈ p.messages, x.time ≠ "")
    (hpj : ∀ q ∈ p.jobs, ∀ x ∈ q.messages, x.time ≠ "") :
    StatusMessage.from_dict now m.to_dict = .ok m ∧
    JobStatus.from_dict now j.to_dict = .ok j ∧
    PipelineStatus.from_dict now p.to_dict =
      .ok { p with publish_callback := none, active_job := none } ∧
    PipelineStatus.to_dict { p with publish_callback := none, active_job := none } =
      p.to_dict :=
  ⟨statusMessage_roundtrip now m hm, jobStatus_roundtrip now j hj,
   pipelineStatus_roundtrip now p hpm hpj, rfl⟩

/-- A sample reachable StatusMessage. -/
def wMsg : StatusMessage := { message := "Pipeline started", time := "t0" }

/-- A sample reachable JobStatus with one logged message. -/
def wJob : JobStatus :=
  { name := "job1", state := "COMPLETE", start_time := some "t1",
    complete_time := some "t2", fail_time := none,
    messages := [{ message := "Job started", time := "t1" }] }

/-- A sample reachable PipelineStatus with one message, one job, a
registered callback and a set active-job pointer. -/
def wPipe : PipelineStatus :=
  { name := "demo", state := "RUNNING", start_time := some "t0", complete_time := none,
    fail_time := none, messages := [wMsg], jobs := [wJob],
    publish_callback := some 3, active_job := some 0 }

/-- Witness for `external_representation_roundtrip` at sample instances. -/
theorem external_representation_roundtrip_witness :
    (wMsg.time ≠ "" ∧ (∀ x ∈ wJob.messages, x.time ≠ "") ∧
     (∀ x ∈ wPipe.messages, x.time ≠ "") ∧
     (∀ q ∈ wPipe.jobs, ∀ x ∈ q.messages, x.time ≠ "")) ∧
    (StatusMessage.from_dict "Z" wMsg.to_dict = .ok wMsg ∧
     JobStatus.from_dict "Z" wJob.to_dict = .ok wJob ∧
     PipelineStatus.from_dict "Z" wPipe.to_dict =
       .ok { wPipe with publish_callback := none, active_job := none } ∧
     PipelineStatus.to_dict { wPipe with publish_callback := none, active_job := none } =
       wPipe.to_dict) :=
  ⟨⟨by decide, by decide, by decide, by decide⟩,
   external_representation_roundtrip "Z" wMsg (by decide) wJob (by decide) wPipe
     (by decide) (by decide)⟩
